import Mathlib

/-!
Verification of the session-orchestration server (`conv_orchestration.py`) and its
webhook data-processing utilities (`utils/dataproc.py`).

The Python code manipulates parsed JSON payloads (dicts, lists, strings, numbers,
booleans, None).  We shallowly embed those values as `JValue`, with JSON numbers
represented as rationals (Python float arithmetic on the credit amounts appearing
in the claims is exact, so the rational model decides them faithfully), and we
embed the Python dict/attribute operations used by the code (`d.get`, `d[k]`,
`in`, `len`, truthiness, `==`) as explicit functions, fallible (`Except`) exactly
where the Python operation can raise.
-/

/-- A parsed JSON value as manipulated by the Python code.  Objects are
insertion-ordered key/value lists with unique keys (Python dict semantics). -/
inductive JValue where
  | null : JValue
  | bool : Bool → JValue
  | num : ℚ → JValue
  | str : String → JValue
  | arr : List JValue → JValue
  | obj : List (String × JValue) → JValue
deriving Repr

/-- First binding of key `k` in an association list (Python dict lookup; keys are
unique in values built by the code). -/
def lookupJ (fs : List (String × JValue)) (k : String) : Option JValue :=
  match fs with
  | [] => none
  | (k1, v) :: rest => if k1 = k then some v else lookupJ rest k

/-- Python `d.get(key, default)`: returns the stored value (which may be `None`)
when the key is present, the default otherwise; raises `AttributeError` when `d`
is not a dict. -/
def pyGetD (v : JValue) (k : String) (d : JValue) : Except String JValue :=
  match v with
  | .obj fs => .ok ((lookupJ fs k).getD d)
  | _ => .error "AttributeError"

/-- Python `d.get(key)` (default `None`). -/
def pyGet (v : JValue) (k : String) : Except String JValue :=
  pyGetD v k .null

/-- Python truthiness of a JSON value. -/
def pyTruthy : JValue → Bool
  | .null => false
  | .bool b => b
  | .num q => if q = 0 then false else true
  | .str s => if s = "" then false else true
  | .arr [] => false
  | .arr (_ :: _) => true
  | .obj [] => false
  | .obj (_ :: _) => true

/-- Numeric view used by Python arithmetic and comparisons: numbers are
themselves, booleans coerce to 0/1, everything else is not a number. -/
def pyToNum : JValue → Except String ℚ
  | .num q => .ok q
  | .bool b => .ok (if b then 1 else 0)
  | _ => .error "TypeError"

mutual

/-- Python `==` on JSON values: `None` only equals `None`, numbers and booleans
compare numerically (`True == 1`), strings compare as strings, lists pointwise,
dicts as mappings (same keys, equal values); values of different kinds are
unequal. -/
def pyEq : JValue → JValue → Bool
  | .null, .null => true
  | .bool a, .bool b => a = b
  | .bool a, .num q => (if a then (1 : ℚ) else 0) = q
  | .num q, .bool b => q = (if b then (1 : ℚ) else 0)
  | .num p, .num q => p = q
  | .str a, .str b => a = b
  | .arr xs, .arr ys => pyEqList xs ys
  | .obj fs, .obj gs => pyEqFields fs gs && (gs.all fun kv => (lookupJ fs kv.1).isSome)
  | _, _ => false

/-- Pointwise list equality for `pyEq`. -/
def pyEqList : List JValue → List JValue → Bool
  | [], [] => true
  | x :: xs, y :: ys => pyEq x y && pyEqList xs ys
  | _, _ => false

/-- Every binding of the first dict is present and `pyEq`-equal in the second. -/
def pyEqFields : List (String × JValue) → List (String × JValue) → Bool
  | [], _ => true
  | (k, v) :: rest, gs =>
      (match lookupJ gs k with
       | some w => pyEq v w
       | none => false) && pyEqFields rest gs

end

/-- Python iteration `for x in v`: lists yield elements, strings yield their
characters as one-character strings, dicts yield their keys; other values raise
`TypeError`. -/
def pyIterList : JValue → Except String (List JValue)
  | .arr xs => .ok xs
  | .str s => .ok (s.toList.map fun c => .str c.toString)
  | .obj fs => .ok (fs.map fun kv => .str kv.1)
  | _ => .error "TypeError"

/-- Python `d.items()`: raises `AttributeError` unless `d` is a dict. -/
def pyItems : JValue → Except String (List (String × JValue))
  | .obj fs => .ok fs
  | _ => .error "AttributeError"

/-- Python `s in v` for a string `s`: key membership for dicts, element
membership for lists, substring test for strings; `TypeError` otherwise. -/
def pyContains (v : JValue) (s : String) : Except String Bool :=
  match v with
  | .obj fs => .ok (lookupJ fs s).isSome
  | .arr xs => .ok (xs.any fun w => pyEq w (.str s))
  | .str t => .ok (if s = "" then true else (t.splitOn s).length > 1)
  | _ => .error "TypeError"

/-- Python subscript `v[k]` with a string key: only dicts support it
(`KeyError` when absent, `TypeError` otherwise). -/
def pySubscript (v : JValue) (k : String) : Except String JValue :=
  match v with
  | .obj fs =>
      match lookupJ fs k with
      | some w => .ok w
      | none => .error "KeyError"
  | _ => .error "TypeError"

/-- Python `len(v)`: defined for strings (code points), lists and dicts;
`TypeError` otherwise. -/
def pyLen : JValue → Except String ℕ
  | .str s => .ok s.length
  | .arr xs => .ok xs.length
  | .obj fs => .ok fs.length
  | _ => .error "TypeError"

/-- Total lookup on an object value with a default; used when reading fields of
dicts this development itself constructed. -/
def objLookupD (v : JValue) (k : String) (d : JValue) : JValue :=
  match v with
  | .obj fs => (lookupJ fs k).getD d
  | _ => d

/-- Helper for `objSet` on the binding list. -/
def objSetFields (fs : List (String × JValue)) (k : String) (w : JValue) :
    List (String × JValue) :=
  match fs with
  | [] => [(k, w)]
  | (k1, v) :: rest =>
      if k1 = k then (k1, w) :: rest else (k1, v) :: objSetFields rest k w

/-- Python `d[k] = w` on a dict value: replaces the first binding of `k` or
appends a new one (dict insertion order). -/
def objSet (v : JValue) (k : String) (w : JValue) : JValue :=
  match v with
  | .obj fs => .obj (objSetFields fs k w)
  | other => other

/-- Python `k in d` for a dict held in a `JValue` (total form used on
constructed dicts). -/
def objHasKey (v : JValue) (k : String) : Bool :=
  match v with
  | .obj fs => (lookupJ fs k).isSome
  | _ => false

/-- Decimal rendering of a rational: integers render exactly as Python
`str(int)` does; the non-integer rendering is an approximation of the Python
float rendering (no claim depends on it). -/
def qRender (q : ℚ) : String :=
  if q.den = 1 then toString q.num else toString q.num ++ "/" ++ toString q.den

/-- Python floor division `a // b` on numbers (result as a rational). -/
def pyFloorDiv (a b : ℚ) : ℚ := (⌊a / b⌋ : ℤ)

/-- Python `a % b` on numbers. -/
def pyMod (a b : ℚ) : ℚ := a - b * (⌊a / b⌋ : ℤ)

/-- Round-half-to-even to an integer (the tie-breaking rule of Python
`round`). -/
def roundHalfEven (q : ℚ) : ℤ :=
  let f := ⌊q⌋
  let r := q - f
  if r < 1 / 2 then f
  else if 1 / 2 < r then f + 1
  else if Even f then f else f + 1

/-- Python `round(x, 4)` in the rational model. -/
def pyRound4 (q : ℚ) : ℚ := (roundHalfEven (q * 10000) : ℤ) / 10000

/-- One-level helper for `pyStr` on containers. -/
def pyStrShallow : JValue → String
  | .null => "None"
  | .bool b => if b then "True" else "False"
  | .num q => qRender q
  | .str s => s
  | .arr _ => "[...]"
  | .obj _ => "\x7b...\x7d"

/-- Python `str(v)` as used in log/error message formatting.  `None`, booleans,
numbers and strings render as in Python; the nested-container rendering is an
approximation (quoting omitted); no claim depends on the rendered text. -/
def pyStr : JValue → String
  | .null => "None"
  | .bool b => if b then "True" else "False"
  | .num q => qRender q
  | .str s => s
  | .arr xs => "[" ++ String.intercalate ", " (xs.map pyStrShallow) ++ "]"
  | .obj fs =>
      "\x7b" ++ String.intercalate ", " (fs.map fun kv => kv.1 ++ ": " ++ pyStrShallow kv.2) ++ "\x7d"

/-! ### `utils/dataproc.py` -/

/-- Character-level worker for `pyTitle`; the flag records whether the previous
character was alphabetic. -/
def pyTitleChars : Bool → List Char → List Char
  | _, [] => []
  | prevAlpha, c :: cs =>
      (if c.isAlpha then (if prevAlpha then c.toLower else c.toUpper) else c) ::
        pyTitleChars c.isAlpha cs

/-- Python `str.title()` on ASCII text: uppercases a letter that follows a
non-letter, lowercases the rest. -/
def pyTitle (s : String) : String :=
  String.mk (pyTitleChars false s.toList)

/-- Embedding of `format_duration` (dataproc.py lines 127-139).  Python `//`
and `%` are `pyFloorDiv`/`pyMod`; number rendering is `qRender` (exact for the
integer inputs the claims quantify over). -/
def format_duration (seconds : ℚ) : String :=
  if seconds < 60 then qRender seconds ++ " seconds"
  else if seconds < 3600 then
    qRender (pyFloorDiv seconds 60) ++ "m " ++ qRender (pyMod seconds 60) ++ "s"
  else
    qRender (pyFloorDiv seconds 3600) ++ "h " ++
      qRender (pyFloorDiv (pyMod seconds 3600) 60) ++ "m " ++
      qRender (pyMod seconds 60) ++ "s"

/-- Embedding of `extract_features_used` (dataproc.py lines 141-151): keeps the
features flagged `{used: true}` (dict case) or boolean-true, rendered with
`replace` and `title` as in the source. -/
def extract_features_used (features_usage : JValue) : Except String (List String) := do
  let items ← pyItems features_usage
  items.foldlM
    (fun acc kv => do
      match kv.2 with
      | .obj _ => do
          let used ← pyGet kv.2 "used"
          if pyTruthy used then pure (acc ++ [pyTitle (kv.1.replace "_" " ")])
          else pure acc
      | .bool b =>
          if b then pure (acc ++ [pyTitle (kv.1.replace "_" " ")])
          else pure acc
      | _ => pure acc)
    []

/-- Formatting of one transcript entry (the `formatted_entry` dict built in
`extract_transcript_data`, dataproc.py lines 21-28). -/
def formatTranscriptEntry (entry : JValue) : Except String JValue := do
  let role ← pyGetD entry "role" (.str "unknown")
  let message ← pyGetD entry "message" (.str "")
  let t ← pyGetD entry "time_in_call_secs" (.num 0)
  let interrupted ← pyGetD entry "interrupted" (.bool false)
  let sm ← pyGetD entry "source_medium" (.str "unknown")
  pure (JValue.obj [("role", role), ("message", message), ("time_in_call_secs", t),
    ("interrupted", interrupted), ("source_medium", sm)])

/-- Embedding of `extract_transcript_data` (dataproc.py lines 9-40): formats
each raw entry, drops entries whose message is falsy, and returns the dict
built at lines 34-40. -/
def extract_transcript_data (webhook_data : JValue) : Except String JValue := do
  let data ← pyGetD webhook_data "data" (.obj [])
  let transcript_raw ← pyGetD data "transcript" (.arr [])
  let entries ← pyIterList transcript_raw
  let formatted ← entries.mapM formatTranscriptEntry
  let filtered := formatted.filter fun e => pyTruthy (objLookupD e "message" .null)
  let conversation_id ← pyGet data "conversation_id"
  let agent_id ← pyGet data "agent_id"
  pure (JValue.obj [("conversation_id", conversation_id), ("agent_id", agent_id),
    ("transcript", .arr filtered), ("message_count", .num filtered.length),
    ("raw_transcript", transcript_raw)])

/-- Replace-in-place update of the per-model aggregation dict used by
`extract_call_statistics` (triples are input tokens, output tokens, cost). -/
def updateLlmDetails (d : List (String × (ℚ × ℚ × ℚ))) (name : String)
    (f : ℚ × ℚ × ℚ → ℚ × ℚ × ℚ) : List (String × (ℚ × ℚ × ℚ)) :=
  match d with
  | [] => []
  | (n, t) :: rest =>
      if n = name then (n, f t) :: rest else (n, t) :: updateLlmDetails rest name f

/-- Body of the inner `for model_name, usage in models.items()` loop of
`extract_call_statistics` (dataproc.py lines 65-78). -/
def llmModelStep (acc : List (String × (ℚ × ℚ × ℚ))) (kv : String × JValue) :
    Except String (List (String × (ℚ × ℚ × ℚ))) := do
  let acc1 := if acc.any fun e => e.1 = kv.1 then acc else acc ++ [(kv.1, (0, 0, 0))]
  let input_data ← pyGetD kv.2 "input" (.obj [])
  let output_data ← pyGetD kv.2 "output_total" (.obj [])
  let tin ← pyToNum (← pyGetD input_data "tokens" (.num 0))
  let tout ← pyToNum (← pyGetD output_data "tokens" (.num 0))
  let pin ← pyToNum (← pyGetD input_data "price" (.num 0))
  let pout ← pyToNum (← pyGetD output_data "price" (.num 0))
  pure (updateLlmDetails acc1 kv.1 fun t => (t.1 + tin, t.2.1 + tout, t.2.2 + pin + pout))

/-- Body of the outer `for generation_type in [...]` loop of
`extract_call_statistics` (dataproc.py lines 62-78). -/
def llmGenTypeStep (llm_usage : JValue) (acc : List (String × (ℚ × ℚ × ℚ)))
    (generation_type : String) : Except String (List (String × (ℚ × ℚ × ℚ))) := do
  let mem ← pyContains llm_usage generation_type
  if mem then
    let gv ← pySubscript llm_usage generation_type
    let models ← pyGetD gv "model_usage" (.obj [])
    let items ← pyItems models
    items.foldlM llmModelStep acc
  else pure acc

/-- Embedding of `extract_call_statistics` (dataproc.py lines 42-96).  Credit
amounts are divided by 100000 and rounded to 4 decimals; `start_time` keeps the
raw unix timestamp where the source renders it through the external `datetime`
library (no claim reads that field). -/
def extract_call_statistics (webhook_data : JValue) : Except String JValue := do
  let data ← pyGetD webhook_data "data" (.obj [])
  let metadata ← pyGetD data "metadata" (.obj [])
  let charging ← pyGetD metadata "charging" (.obj [])
  let callChargeRaw ← pyGetD charging "call_charge" (.num 0)
  let call_cost_dollars := (← pyToNum callChargeRaw) / 100000
  let llmChargeRaw ← pyGetD charging "llm_charge" (.num 0)
  let llm_cost_dollars := (← pyToNum llmChargeRaw) / 100000
  let costRaw ← pyGetD metadata "cost" (.num 0)
  let total_cost_dollars := (← pyToNum costRaw) / 100000
  let llm_usage ← pyGetD charging "llm_usage" (.obj [])
  let llm_details ←
    ["irreversible_generation", "initiated_generation"].foldlM (llmGenTypeStep llm_usage) []
  let durRaw ← pyGetD metadata "call_duration_secs" (.num 0)
  let dur ← pyToNum durRaw
  let stRaw ← pyGetD metadata "start_time_unix_secs" (.num 0)
  let start_time ←
    if pyTruthy stRaw then do
      let q ← pyToNum stRaw
      pure (JValue.num q)
    else pure JValue.null
  let termination_reason ← pyGetD metadata "termination_reason" (.str "Unknown")
  let main_language ← pyGetD metadata "main_language" (.str "Unknown")
  let features_usage ← pyGetD metadata "features_usage" (.obj [])
  let features ← extract_features_used features_usage
  pure (JValue.obj
    [("call_duration_secs", durRaw),
     ("call_duration_formatted", .str (format_duration dur)),
     ("start_time", start_time),
     ("termination_reason", termination_reason),
     ("main_language", main_language),
     ("costs", .obj
       [("total_cost_dollars", .num (pyRound4 total_cost_dollars)),
        ("call_cost_dollars", .num (pyRound4 call_cost_dollars)),
        ("llm_cost_dollars", .num (pyRound4 llm_cost_dollars)),
        ("total_cost_credits", costRaw),
        ("call_cost_credits", callChargeRaw),
        ("llm_cost_credits", llmChargeRaw)]),
     ("llm_usage", .obj (llm_details.map fun e =>
        (e.1, JValue.obj [("total_input_tokens", .num e.2.1),
          ("total_output_tokens", .num e.2.2.1), ("total_cost", .num e.2.2.2)]))),
     ("features_used", .arr (features.map JValue.str))])

/-- Formatting of one collected-data entry in `extract_analysis_data`
(dataproc.py lines 112-118). -/
def formatCollectedEntry (item : JValue) : Except String JValue := do
  let value ← pyGet item "value"
  let js1 ← pyGetD item "json_schema" (.obj [])
  let ty ← pyGetD js1 "type" (.str "unknown")
  let js2 ← pyGetD item "json_schema" (.obj [])
  let desc ← pyGetD js2 "description" (.str "")
  let rationale ← pyGetD item "rationale" (.str "")
  pure (JValue.obj [("value", value), ("type", ty), ("description", desc),
    ("rationale", rationale)])

/-- Embedding of `extract_analysis_data` (dataproc.py lines 98-125). -/
def extract_analysis_data (webhook_data : JValue) : Except String JValue := do
  let data ← pyGetD webhook_data "data" (.obj [])
  let analysis ← pyGetD data "analysis" (.obj [])
  let data_collection ← pyGetD analysis "data_collection_results" (.obj [])
  let items ← pyItems data_collection
  let collected ← items.mapM fun kv => do
    let e ← formatCollectedEntry kv.2
    pure (kv.1, e)
  let summary ← pyGetD analysis "transcript_summary" (.str "")
  let call_successful ← pyGetD analysis "call_successful" (.str "unknown")
  let eval_results ← pyGetD analysis "evaluation_criteria_results" (.obj [])
  pure (JValue.obj [("summary", summary), ("call_successful", call_successful),
    ("collected_data", .obj collected), ("evaluation_results", eval_results)])

/-- Embedding of `extract_key_patient_info` (dataproc.py lines 207-220). -/
def extract_key_patient_info (collected_data : JValue) : Except String JValue := do
  let pn ← pyGetD collected_data "patient_name" (.obj [])
  let patient_name ← pyGetD pn "value" (.str "Unknown")
  let pd ← pyGetD collected_data "patient_dob" (.obj [])
  let patient_dob ← pyGetD pd "value" (.str "Unknown")
  let dg ← pyGetD collected_data "primary_diagnosis" (.obj [])
  let primary_diagnosis ← pyGetD dg "value" (.str "Unknown")
  let cm ← pyGetD collected_data "comorbidities" (.obj [])
  let comorbidities ← pyGetD cm "value" (.str "None")
  let ta ← pyGetD collected_data "transportation_assistance" (.obj [])
  let transportation ← pyGetD ta "value" (.bool false)
  pure (JValue.obj [("patient_name", patient_name), ("patient_dob", patient_dob),
    ("primary_diagnosis", primary_diagnosis), ("comorbidities", comorbidities),
    ("transportation_needed", transportation)])

/-- Embedding of `process_post_call_webhook` (dataproc.py lines 153-187).  The
initial `webhook_data.get('type', '')` sits outside the `try` block, so its
failure (non-dict payload) propagates; every extraction failure inside the
`try` is caught and turned into the error dict of lines 184-187.  The model
takes the wall-clock time used for the `timestamp` field as a parameter (the
source reads `datetime.now()`); the field holds the raw clock value where the
source renders it as an ISO string. -/
def process_post_call_webhook (now : ℚ) (webhook_data : JValue) :
    Except String JValue := do
  let wt ← pyGetD webhook_data "type" (.str "")
  if pyEq wt (.str "post_call_transcription") = false then
    pure (JValue.obj
      [("error", .str ("Unexpected webhook type: " ++ pyStr wt)),
       ("raw_data", webhook_data)])
  else
    match (do
        let t ← extract_transcript_data webhook_data
        let s ← extract_call_statistics webhook_data
        let a ← extract_analysis_data webhook_data
        pure (t, s, a) : Except String (JValue × JValue × JValue)) with
    | .ok (t, s, a) =>
        pure (JValue.obj
          [("webhook_type", wt),
           ("timestamp", .num now),
           ("conversation_id", objLookupD t "conversation_id" .null),
           ("agent_id", objLookupD t "agent_id" .null),
           ("transcript", t),
           ("statistics", s),
           ("analysis", a),
           ("raw_data", webhook_data)])
    | .error e =>
        pure (JValue.obj
          [("error", .str ("Error processing webhook: " ++ e)),
           ("raw_data", webhook_data)])

/-! ### `conv_orchestration.py` -/

/-- Session lifecycle states (conv_orchestration.py lines 85-89). -/
inductive ConversationStatus where
  | INITIALIZING : ConversationStatus
  | ACTIVE : ConversationStatus
  | COMPLETED : ConversationStatus
  | ERROR : ConversationStatus
deriving DecidableEq, BEq, Repr

/-- The `.value` strings of the Python enum. -/
def ConversationStatus.value : ConversationStatus → String
  | .INITIALIZING => "initializing"
  | .ACTIVE => "active"
  | .COMPLETED => "completed"
  | .ERROR => "error"

/-- One element of a session's raw `webhook_data` audit log (the dict appended
at conv_orchestration.py lines 371-375); timestamps are modelled as integers. -/
structure RawEvent where
  type : JValue
  timestamp : ℤ
  data : JValue
deriving Repr

/-- The `ConversationSession` dataclass (conv_orchestration.py lines 91-113).
`conversation_id` is a `JValue` because the code stores whatever value the
payload or the client supplied there (initially `None`). -/
structure ConversationSession where
  session_id : String
  agent_id : String
  conversation_id : JValue := .null
  status : ConversationStatus := .INITIALIZING
  created_at : ℤ
  updated_at : ℤ
  metadata : JValue := .obj []
  webhook_data : List RawEvent := []
  processed_data : JValue := .obj []
deriving Repr

/-- Embedding of `verify_webhook_signature` (conv_orchestration.py lines
143-171).  `hmacSha256Hex` abstracts the HMAC-SHA256 hex digest of the raw body
keyed with the configured webhook secret (external crypto; only its comparison
contract matters here).  Note the source logs "Invalid webhook signature" on a
digest mismatch but then returns `True`, with `# return False` left commented
out (lines 162-165). -/
def verify_webhook_signature (hmacSha256Hex : String → String)
    (signature : Option String) (payload : String) : Bool :=
  match signature with
  | none => false
  | some sig =>
      let expected_signature := hmacSha256Hex payload
      if sig ≠ expected_signature then true
      else true

/-- The for-loop scan of `sessions.values()` by `conversation_id`
(conv_orchestration.py lines 318-323), returning the first match in insertion
order; this is the call-identity lookup of the session store. -/
def findSessionByConversationId (sessions : List ConversationSession)
    (conversation_id : JValue) : Option ConversationSession :=
  sessions.find? fun sess => pyEq sess.conversation_id conversation_id

/-- Index form of `findSessionByConversationId`. -/
def findSessionIdxByConversationId (sessions : List ConversationSession)
    (conversation_id : JValue) : Option ℕ :=
  sessions.findIdx? fun sess => pyEq sess.conversation_id conversation_id

/-- Embedding of `sess.status in [ConversationStatus.ACTIVE, ConversationStatus.INITIALIZING]`. -/
def statusOpen (sess : ConversationSession) : Bool :=
  sess.status == .ACTIVE || sess.status == .INITIALIZING

/-- Python `max(sessions, key=lambda s: s.created_at)` over indexed candidates:
first maximal element wins ties, as in the source. -/
def maxByCreatedAt (l : List (ℕ × ConversationSession)) :
    Option (ℕ × ConversationSession) :=
  match l with
  | [] => none
  | x :: xs =>
      some (xs.foldl (fun acc y => if acc.2.created_at < y.2.created_at then y else acc) x)

/-- The `matching_sessions` filter of the agent-scoped fallback
(conv_orchestration.py lines 337-340), with positions retained. -/
def agentMatchCandidates (sessions : List ConversationSession) (agent_id : JValue) :
    List (ℕ × ConversationSession) :=
  sessions.enum.filter fun p => pyEq (.str p.2.agent_id) agent_id && statusOpen p.2

/-- The `recent_sessions` filter of the recency fallback (conv_orchestration.py
lines 353-357): open status and created within the last 300 seconds. -/
def recentCandidates (now : ℤ) (sessions : List ConversationSession) :
    List (ℕ × ConversationSession) :=
  sessions.enum.filter fun p => statusOpen p.2 && decide (now - p.2.created_at < 300)

/-- The fallback binding (conv_orchestration.py lines 347-348 and 364-365):
link the conversation id to the chosen session and promote it to Active. -/
def bindSession (sessions : List ConversationSession) (i : ℕ)
    (s : ConversationSession) (conversation_id : JValue) : List ConversationSession :=
  sessions.set i { s with conversation_id := conversation_id, status := .ACTIVE }

/-- The correlation engine of the webhook endpoint (conv_orchestration.py lines
318-367): exact conversation-id match first; otherwise, only for
`post_call_transcription` callbacks carrying a truthy agent identity, the
agent-scoped fallback and then the recency fallback, each picking the latest
`created_at` candidate and binding it.  Returns the selected index (if any) and
the updated session list. -/
def correlate (now : ℤ) (sessions : List ConversationSession)
    (webhook_type conversation_id agent_id : JValue) :
    Option ℕ × List ConversationSession :=
  match findSessionIdxByConversationId sessions conversation_id with
  | some i => (some i, sessions)
  | none =>
      if pyEq webhook_type (.str "post_call_transcription") && pyTruthy agent_id then
        match maxByCreatedAt (agentMatchCandidates sessions agent_id) with
        | some (i, s) => (some i, bindSession sessions i s conversation_id)
        | none =>
            match maxByCreatedAt (recentCandidates now sessions) with
            | some (i, s) => (some i, bindSession sessions i s conversation_id)
            | none => (none, sessions)
      else (none, sessions)

/-- In-place update of the session at index `i` (Python mutates the object held
in the dict). -/
def updateAt (sessions : List ConversationSession) (i : ℕ)
    (f : ConversationSession → ConversationSession) : List ConversationSession :=
  match sessions[i]? with
  | some s => sessions.set i (f s)
  | none => sessions

/-- The post-call processing block of the webhook handler
(conv_orchestration.py lines 379-411): run `process_post_call_webhook`, store
the result, then best-effort stage classification through the external
collaborator `classify` (`classify_conversation_stages`, an OpenAI call).  On
an inner failure the session keeps its previous `processed_data` with a
`processing_error` entry added.  The log-only reads of lines 397-407 (including
`extract_key_patient_info`) cannot fail on the dicts built here and mutate
nothing, so they do not appear. -/
def processPostCallStep (classify : JValue → Except String JValue) (now : ℤ)
    (body : JValue) (sess : ConversationSession) : ConversationSession :=
  match process_post_call_webhook (now : ℚ) body with
  | .ok processed =>
      let processed2 :=
        if objHasKey processed "transcript" then
          match classify (objLookupD processed "transcript" .null) with
          | .ok ct => objSet processed "classified_transcript" ct
          | .error _ => processed
        else processed
      { sess with processed_data := processed2 }
  | .error e =>
      { sess with processed_data := objSet sess.processed_data "processing_error" (.str e) }

/-- The status update of conv_orchestration.py lines 413-417. -/
def statusUpdateStep (webhook_type : JValue) (sess : ConversationSession) :
    ConversationSession :=
  if pyEq webhook_type (.str "conversation.completed") ||
      pyEq webhook_type (.str "post_call_transcription") then
    { sess with status := .COMPLETED }
  else if pyEq webhook_type (.str "conversation.error") then
    { sess with status := .ERROR }
  else sess

/-- The `emit_data['summary']` dict of conv_orchestration.py lines 428-433.
The `len(...)` call of line 432 raises when the stored summary is not a sized
value, and the slice-plus-string concatenation only succeeds on strings, so the
construction is fallible. -/
def buildEmitSummary (processed : JValue) : Except String JValue := do
  let tblock ← pyGetD processed "transcript" (.obj [])
  let mc ← pyGetD tblock "message_count" (.num 0)
  let sblock ← pyGetD processed "statistics" (.obj [])
  let cd ← pyGetD sblock "call_duration_formatted" (.str "N/A")
  let sblock2 ← pyGetD processed "statistics" (.obj [])
  let costs ← pyGetD sblock2 "costs" (.obj [])
  let tc ← pyGetD costs "total_cost_dollars" (.num 0)
  let ablock ← pyGetD processed "analysis" (.obj [])
  let summary ← pyGetD ablock "summary" (.str "")
  let n ← pyLen summary
  let call_summary ←
    if 200 < n then
      match summary with
      | .str s => Except.ok (JValue.str (String.append (s.take 200) "..."))
      | _ => Except.error "TypeError"
    else Except.ok summary
  pure (JValue.obj [("message_count", mc), ("call_duration", cd),
    ("total_cost", tc), ("call_summary", call_summary)])

/-- The agent identity read of conv_orchestration.py line 327.  It happens
only on the fallback path in the source and cannot newly fail once the
conversation-id read succeeded (it walks the same dicts), so it is hoisted into
a named total function. -/
def agentIdOf (body : JValue) : JValue :=
  match (do
      let d ← pyGetD body "data" (.obj [])
      pyGet d "agent_id" : Except String JValue) with
  | .ok a => a
  | .error _ => JValue.null

/-- The `data` block re-read of conv_orchestration.py line 374, hoisted the
same way. -/
def dataValOf (body : JValue) : JValue :=
  match pyGetD body "data" (.obj []) with
  | .ok d => d
  | .error _ => JValue.obj []

/-- The body of the `try` block of the webhook endpoint (conv_orchestration.py
lines 311-441), threading the session store and the socket emissions; the final
`Bool` is `false` when an uncaught exception escapes the block (the handler
then answers 500 with the mutations made so far kept, as Python does). -/
def webhookTry (classify : JValue → Except String JValue) (now : ℤ)
    (sessions0 : List ConversationSession) (body : JValue) :
    List ConversationSession × List (String × JValue) × Bool :=
  match pyGet body "type" with
  | .error _ => (sessions0, [], false)
  | .ok webhook_type =>
  match (do
      let d ← pyGetD body "data" (.obj [])
      pyGet d "conversation_id" : Except String JValue) with
  | .error _ => (sessions0, [], false)
  | .ok conversation_id =>
  let agent_id := agentIdOf body
  let dataVal := dataValOf body
  match correlate now sessions0 webhook_type conversation_id agent_id with
  | (none, sessions1) => (sessions1, [], true)
  | (some i, sessions1) =>
    let sessions2 := updateAt sessions1 i fun s =>
      { s with webhook_data := s.webhook_data ++ [⟨webhook_type, now, dataVal⟩],
               updated_at := now }
    let sessions3 :=
      if pyEq webhook_type (.str "post_call_transcription") then
        updateAt sessions2 i (processPostCallStep classify now body)
      else sessions2
    let sessions4 := updateAt sessions3 i (statusUpdateStep webhook_type)
    match sessions4[i]? with
    | none => (sessions4, [], true)
    | some sess =>
      let emitBase := [("type", webhook_type),
        ("session_id", JValue.str sess.session_id), ("data", dataVal)]
      if pyEq webhook_type (.str "post_call_transcription") &&
          pyTruthy sess.processed_data then
        match buildEmitSummary sess.processed_data with
        | .ok summaryObj =>
            (sessions4,
             [(sess.session_id, JValue.obj (emitBase ++ [("summary", summaryObj)]))],
             true)
        | .error _ => (sessions4, [], false)
      else (sessions4, [(sess.session_id, JValue.obj emitBase)], true)

/-- A webhook delivery: signature header, raw body bytes (as a string) and the
parsed JSON body. -/
structure WebhookRequest where
  signature : Option String
  rawBody : String
  json : JValue

/-- The three responses the webhook endpoint can produce: 401 with an error
body, 200 with `{status: "processed"}`, 500 with `{error: "Processing
failed"}`. -/
inductive WebhookResponse where
  | unauthorized : WebhookResponse
  | processed : WebhookResponse
  | processingFailed : WebhookResponse
deriving DecidableEq, Repr

/-- Result of one webhook delivery: final session store, HTTP response, and the
socket events emitted (room, payload). -/
structure WebhookResult where
  sessions : List ConversationSession
  response : WebhookResponse
  emitted : List (String × JValue)

/-- Embedding of the webhook endpoint (conv_orchestration.py lines 304-445):
signature gate, then the `try` body; an exception inside the `try` yields the
500 response with the mutations made so far kept. -/
def webhook (hmacSha256Hex : String → String)
    (classify : JValue → Except String JValue) (now : ℤ)
    (sessions : List ConversationSession) (req : WebhookRequest) : WebhookResult :=
  if verify_webhook_signature hmacSha256Hex req.signature req.rawBody = false then
    ⟨sessions, .unauthorized, []⟩
  else
    match webhookTry classify now sessions req.json with
    | (st, em, true) => ⟨st, .processed, em⟩
    | (st, em, false) => ⟨st, .processingFailed, em⟩

/-- Embedding of `sessions.get(session_id)`: dict lookup keyed by the session-id string (a
non-string key finds nothing). -/
def findSessionById (sessions : List ConversationSession) (sid : JValue) :
    Option ConversationSession :=
  match sid with
  | .str s => sessions.find? fun sess => sess.session_id == s
  | _ => none

/-- Update of the session stored under `sid` (the first record with that id,
matching dict-unique keys). -/
def updateById (sessions : List ConversationSession) (sid : String)
    (f : ConversationSession → ConversationSession) : List ConversationSession :=
  match sessions with
  | [] => []
  | s :: rest =>
      if s.session_id == sid then f s :: rest else s :: updateById rest sid f

/-- Embedding of the `join_session` socket handler (conv_orchestration.py lines
500-518): an existing session is set to Active unconditionally and a
`session_joined` event is emitted with the (new) status value; an unknown
session only emits an error event. -/
def handle_join_session (sessions : List ConversationSession) (data : JValue) :
    List ConversationSession × List JValue :=
  match pyGet data "session_id" with
  | .error _ => (sessions, [])
  | .ok sid =>
    match findSessionById sessions sid with
    | none => (sessions, [JValue.obj [("message", .str "Invalid session")]])
    | some _ =>
      let sessions1 :=
        match sid with
        | .str s => updateById sessions s fun sess => { sess with status := .ACTIVE }
        | _ => sessions
      (sessions1,
       [JValue.obj [("session_id", sid),
         ("status", .str (ConversationStatus.ACTIVE.value))]])

/-- Embedding of the `conversation_started` socket handler
(conv_orchestration.py lines 529-548): for an existing session the
client-asserted conversation id is stored unconditionally and the status set to
Active. -/
def handle_conversation_started (now : ℤ) (sessions : List ConversationSession)
    (data : JValue) : List ConversationSession × List (String × JValue) :=
  match (do
      let sid ← pyGet data "session_id"
      let cid ← pyGet data "conversation_id"
      pure (sid, cid) : Except String (JValue × JValue)) with
  | .error _ => (sessions, [])
  | .ok (sid, cid) =>
    match findSessionById sessions sid with
    | none => (sessions, [])
    | some _ =>
      let room := match sid with | .str s => s | _ => ""
      let sessions1 :=
        match sid with
        | .str s =>
            updateById sessions s fun sess =>
              { sess with conversation_id := cid, status := .ACTIVE, updated_at := now }
        | _ => sessions
      (sessions1,
       [(room, JValue.obj [("session_id", sid), ("conversation_id", cid),
          ("status", .str "started")])])

/-- Embedding of session creation (conv_orchestration.py lines 198-232): a new
record keyed by a fresh id is appended with the agent identity from the
registry and status Initializing. -/
def create_session (session_id agent_id : String) (metadata : JValue) (now : ℤ)
    (sessions : List ConversationSession) : List ConversationSession :=
  let s : ConversationSession :=
    { session_id := session_id, agent_id := agent_id, conversation_id := .null,
      status := .INITIALIZING, created_at := now, updated_at := now,
      metadata := metadata, webhook_data := [], processed_data := .obj [] }
  sessions ++ [s]

/-! ### Fixtures and invariant definitions used by the claim theorems -/

/-- A post-call payload whose metadata carries a charging block with the given
credit amounts (call leg, language-model leg, total). -/
def chargingPayload (c l t : ℚ) : JValue :=
  .obj [("type", .str "post_call_transcription"),
        ("data", .obj
          [("metadata", .obj
            [("cost", .num t),
             ("charging", .obj
               [("call_charge", .num c), ("llm_charge", .num l)])])])]

/-- Session fixture for the C10 witness: a Completed session. -/
def joinWitnessSession : ConversationSession :=
  { session_id := "J", agent_id := "agent-a", status := .COMPLETED,
    created_at := 0, updated_at := 0 }

/-- Fixture for C7: a session already correlated to call identity "conv-1". -/
def summarySession : ConversationSession :=
  { session_id := "S", agent_id := "agent-1", conversation_id := .str "conv-1",
    status := .ACTIVE, created_at := 0, updated_at := 0 }

/-- Fixture for C7: a post-call transcription payload for that call whose
analysis block carries `transcript_summary` `s`. -/
def summaryPayload (s : String) : JValue :=
  .obj [("type", .str "post_call_transcription"),
        ("data", .obj
          [("conversation_id", .str "conv-1"), ("agent_id", .str "agent-1"),
           ("transcript", .arr []), ("metadata", .obj []),
           ("analysis", .obj [("transcript_summary", .str s)])])]

/-- Fixture for the C2 witness: the spec example session A (agent X, created
T0, Initializing). -/
def sessionA : ConversationSession :=
  { session_id := "A", agent_id := "agent-x", status := .INITIALIZING,
    created_at := 0, updated_at := 0 }

/-- Fixture for the C2 witness: the spec example session B (agent Y, created
T0+10, Active). -/
def sessionB : ConversationSession :=
  { session_id := "B", agent_id := "agent-y", status := .ACTIVE,
    created_at := 10, updated_at := 10 }

/-- Fixture for the C3 counterexample: an Initializing session created 10
seconds ago, well inside the 300-second recency window. -/
def recencySession : ConversationSession :=
  { session_id := "R", agent_id := "agent-x", status := .INITIALIZING,
    created_at := 990, updated_at := 990 }

/-- Fixture for the C3 witness: a recent open session of a different agent. -/
def recencySessionB : ConversationSession :=
  { session_id := "R2", agent_id := "agent-y", status := .ACTIVE,
    created_at := 900, updated_at := 900 }

/-- A stored call identity is well-typed: `None` or a string (what the
provider, the session store and every claim scenario store there). -/
def convIdOk (v : JValue) : Prop := v = .null ∨ ∃ a, v = .str a

/-- Every session in the store has a well-typed call identity. -/
def StoreConvOk (sessions : List ConversationSession) : Prop :=
  ∀ s ∈ sessions, convIdOk s.conversation_id

/-- No two distinct positions hold the same non-null call identity, in the
Python `==` orientation used by the scan of conv_orchestration.py lines
320-323. -/
def UniqueCallIds (sessions : List ConversationSession) : Prop :=
  ∀ (i j : ℕ) (s t : ConversationSession), i ≠ j →
    sessions[i]? = some s → sessions[j]? = some t →
    s.conversation_id ≠ .null →
    pyEq t.conversation_id s.conversation_id = false

/-- Fixture for the C6 counterexample. -/
def dupSessionA : ConversationSession :=
  { session_id := "A", agent_id := "agent-x", created_at := 0, updated_at := 0 }

/-- Fixture for the C6 counterexample. -/
def dupSessionB : ConversationSession :=
  { session_id := "B", agent_id := "agent-y", created_at := 0, updated_at := 0 }

/-- Store after the client declares conversation "c7" started for session A. -/
def dupStarted1 : List ConversationSession :=
  (handle_conversation_started 5 [dupSessionA, dupSessionB]
    (.obj [("session_id", .str "A"), ("conversation_id", .str "c7")])).1

/-- Store after the client then declares the same conversation "c7" started
for session B. -/
def dupStarted2 : List ConversationSession :=
  (handle_conversation_started 6 dupStarted1
    (.obj [("session_id", .str "B"), ("conversation_id", .str "c7")])).1

/-! ### Helper lemmas -/

set_option maxHeartbeats 1000000

/-- Integer rationals render as Python `str(int)`. -/
theorem qRender_intCast (a : ℤ) : qRender (a : ℚ) = toString a := by
  simp [qRender, Rat.den_intCast, Rat.num_intCast]

/-- Python `//` on an integer cast agrees with integer division. -/
theorem pyFloorDiv_intCast (a : ℤ) (d : ℕ) :
    pyFloorDiv (a : ℚ) ((d : ℕ) : ℚ) = ((a / (d : ℤ) : ℤ) : ℚ) := by
  simp [pyFloorDiv, Rat.floor_intCast_div_natCast]

/-- Python `%` on an integer cast agrees with integer remainder. -/
theorem pyMod_intCast (a : ℤ) (d : ℕ) :
    pyMod (a : ℚ) ((d : ℕ) : ℚ) = ((a % (d : ℤ) : ℤ) : ℚ) := by
  have hfloor : ⌊(a : ℚ) / ((d : ℕ) : ℚ)⌋ = a / (d : ℤ) :=
    Rat.floor_intCast_div_natCast a d
  have hmod : a % (d : ℤ) = a - (d : ℤ) * (a / (d : ℤ)) := Int.emod_def a (d : ℤ)
  rw [pyMod, hfloor, hmod]
  push_cast
  ring

/-! ### Claim theorems -/

/-- C1: the claim states that `verify_webhook_signature` returns `False`
whenever the supplied signature differs from the HMAC digest of the body.  The
code instead returns `True` on a digest mismatch (conv_orchestration.py lines
162-165, where the logging announces an invalid signature and `# return False`
is commented out).  This theorem evaluates the embedded code at such a failing
input: the header value differs from the digest of the body, yet verification
succeeds. -/
theorem verify_webhook_signature_accepts_mismatch :
    verify_webhook_signature (fun _ => "aaaa") (some "zzzz") "body" = true ∧
    "zzzz" ≠ (fun (_ : String) => "aaaa") "body" := by
  exact ⟨rfl, by decide⟩

/-- Branch lemma: an integer duration below 60 seconds. -/
theorem format_duration_int_lt (s : ℤ) (h1 : s < 60) :
    format_duration (s : ℚ) = toString s ++ " seconds" := by
  rw [format_duration, if_pos (by exact_mod_cast h1), qRender_intCast]

/-- Branch lemma: an integer duration in [60, 3600). -/
theorem format_duration_int_mid (s : ℤ) (h1 : 60 ≤ s) (h2 : s < 3600) :
    format_duration (s : ℚ) =
      toString (s / 60) ++ "m " ++ toString (s % 60) ++ "s" := by
  have h60 : ((60 : ℚ)) = ((60 : ℕ) : ℚ) := by norm_num
  rw [format_duration, if_neg (by exact_mod_cast not_lt.2 h1),
    if_pos (by exact_mod_cast h2), h60, pyFloorDiv_intCast, pyMod_intCast,
    qRender_intCast, qRender_intCast]
  norm_num

/-- Branch lemma: an integer duration of at least 3600. -/
theorem format_duration_int_high (s : ℤ) (h1 : 3600 ≤ s) :
    format_duration (s : ℚ) =
      toString (s / 3600) ++ "h " ++ toString (s % 3600 / 60) ++ "m " ++
        toString (s % 60) ++ "s" := by
  have h60 : ((60 : ℚ)) = ((60 : ℕ) : ℚ) := by norm_num
  have h3600 : ((3600 : ℚ)) = ((3600 : ℕ) : ℚ) := by norm_num
  have hlt : ¬ ((s : ℚ) < 60) := by
    exact_mod_cast not_lt.2 (le_trans (by norm_num) h1)
  rw [format_duration, if_neg hlt, if_neg (by exact_mod_cast not_lt.2 h1)]
  rw [h3600, pyFloorDiv_intCast, pyMod_intCast, h60, pyMod_intCast,
    pyFloorDiv_intCast, qRender_intCast, qRender_intCast, qRender_intCast]
  norm_num

/-- C8: `format_duration` renders a non-negative integer duration below 60 as
"N seconds", below 3600 as minutes and remaining seconds, and 3600 or more as
hours, minutes and seconds, matching the spec examples 45, 125 and 3725. -/
theorem format_duration_spec (s : ℤ) (h : 0 ≤ s) :
    (s < 60 → format_duration (s : ℚ) = toString s ++ " seconds") ∧
    (60 ≤ s → s < 3600 →
      format_duration (s : ℚ) =
        toString (s / 60) ++ "m " ++ toString (s % 60) ++ "s") ∧
    (3600 ≤ s →
      format_duration (s : ℚ) =
        toString (s / 3600) ++ "h " ++ toString (s % 3600 / 60) ++ "m " ++
          toString (s % 60) ++ "s") ∧
    format_duration 45 = "45 seconds" ∧
    format_duration 125 = "2m 5s" ∧
    format_duration 3725 = "1h 2m 5s" := by
  refine ⟨format_duration_int_lt s, format_duration_int_mid s,
    format_duration_int_high s, ?_, ?_, ?_⟩
  · have h45 : ((45 : ℚ)) = (((45 : ℤ)) : ℚ) := by norm_num
    rw [h45, format_duration_int_lt 45 (by decide)]
    decide
  · have h125 : ((125 : ℚ)) = (((125 : ℤ)) : ℚ) := by norm_num
    rw [h125, format_duration_int_mid 125 (by decide) (by decide)]
    decide
  · have h3725 : ((3725 : ℚ)) = (((3725 : ℤ)) : ℚ) := by norm_num
    rw [h3725, format_duration_int_high 3725 (by decide)]
    decide

/-- Closed witness for C8, discharging the hypotheses of
`format_duration_spec` at 125. -/
theorem format_duration_spec_witness :
    (0 : ℤ) ≤ 125 ∧ format_duration ((125 : ℤ) : ℚ) = "2m 5s" := by
  refine ⟨by norm_num, ?_⟩
  have h := (format_duration_spec 125 (by norm_num)).2.1 (by norm_num) (by norm_num)
  simpa using h

/-- C9: `extract_call_statistics` converts credit amounts to decimal currency
by dividing by the fixed divisor 100000, separately for the call leg, the
language-model leg and the total; at `call_charge=100000, llm_charge=50000,
cost=150000` this yields 1.0, 0.5 and 1.5 dollars. -/
theorem extract_call_statistics_cost_divisor (c l t : ℚ) :
    (∃ stats : JValue,
      extract_call_statistics (chargingPayload c l t) = .ok stats ∧
      objLookupD (objLookupD stats "costs" .null) "call_cost_dollars" .null =
        .num (pyRound4 (c / 100000)) ∧
      objLookupD (objLookupD stats "costs" .null) "llm_cost_dollars" .null =
        .num (pyRound4 (l / 100000)) ∧
      objLookupD (objLookupD stats "costs" .null) "total_cost_dollars" .null =
        .num (pyRound4 (t / 100000))) ∧
    pyRound4 ((100000 : ℚ) / 100000) = 1 ∧
    pyRound4 ((50000 : ℚ) / 100000) = 1 / 2 ∧
    pyRound4 ((150000 : ℚ) / 100000) = 3 / 2 := by
  refine ⟨⟨_, rfl, rfl, rfl, rfl⟩, ?_, ?_, ?_⟩
  · norm_num [pyRound4, roundHalfEven]
  · norm_num [pyRound4, roundHalfEven]
  · norm_num [pyRound4, roundHalfEven]

/-- Unfolding of `process_post_call_webhook` on a dict payload (the initial
type read succeeds definitionally). -/
theorem process_post_call_webhook_obj_eq (now : ℚ) (fs : List (String × JValue)) :
    process_post_call_webhook now (.obj fs) =
      if pyEq ((lookupJ fs "type").getD (.str ""))
          (.str "post_call_transcription") = false then
        .ok (.obj [("error", .str ("Unexpected webhook type: " ++
          pyStr ((lookupJ fs "type").getD (.str "")))), ("raw_data", .obj fs)])
      else
        match (do
            let t ← extract_transcript_data (.obj fs)
            let s ← extract_call_statistics (.obj fs)
            let a ← extract_analysis_data (.obj fs)
            pure (t, s, a) : Except String (JValue × JValue × JValue)) with
        | .ok (t, s, a) =>
            .ok (.obj
              [("webhook_type", (lookupJ fs "type").getD (.str "")),
               ("timestamp", .num now),
               ("conversation_id", objLookupD t "conversation_id" .null),
               ("agent_id", objLookupD t "agent_id" .null),
               ("transcript", t),
               ("statistics", s),
               ("analysis", a),
               ("raw_data", .obj fs)])
        | .error e =>
            .ok (.obj [("error", .str ("Error processing webhook: " ++ e)),
              ("raw_data", .obj fs)]) := rfl

/-- C5: for every dict payload, `process_post_call_webhook` returns a result
(never raises past its boundary); the result always carries the raw payload
unchanged under `raw_data`, and both on a non-post-call type and on any
extraction failure the result is error-tagged. -/
theorem process_post_call_webhook_spec (now : ℚ) (fs : List (String × JValue)) :
    ∃ rfields : List (String × JValue),
      process_post_call_webhook now (.obj fs) = .ok (.obj rfields) ∧
      lookupJ rfields "raw_data" = some (.obj fs) ∧
      (pyEq ((lookupJ fs "type").getD (.str ""))
          (.str "post_call_transcription") = false →
        ∃ msg, lookupJ rfields "error" = some (.str msg)) ∧
      (∀ e, (do
          let t ← extract_transcript_data (.obj fs)
          let s ← extract_call_statistics (.obj fs)
          let a ← extract_analysis_data (.obj fs)
          pure (t, s, a) : Except String (JValue × JValue × JValue)) = .error e →
        ∃ msg, lookupJ rfields "error" = some (.str msg)) := by
  by_cases h : pyEq ((lookupJ fs "type").getD (.str ""))
      (.str "post_call_transcription") = false
  · refine ⟨[("error", .str ("Unexpected webhook type: " ++
        pyStr ((lookupJ fs "type").getD (.str "")))), ("raw_data", .obj fs)],
      ?_, rfl, fun _ => ⟨_, rfl⟩, fun _ _ => ⟨_, rfl⟩⟩
    rw [process_post_call_webhook_obj_eq, if_pos h]
  · rcases htrip : (do
        let t ← extract_transcript_data (.obj fs)
        let s ← extract_call_statistics (.obj fs)
        let a ← extract_analysis_data (.obj fs)
        pure (t, s, a) : Except String (JValue × JValue × JValue)) with e | tsa
    · refine ⟨[("error", .str ("Error processing webhook: " ++ e)),
          ("raw_data", .obj fs)],
        ?_, rfl, fun hContra => absurd hContra h, fun _ _ => ⟨_, rfl⟩⟩
      rw [process_post_call_webhook_obj_eq, if_neg h, htrip]
    · obtain ⟨t, s, a⟩ := tsa
      refine ⟨[("webhook_type", (lookupJ fs "type").getD (.str "")),
          ("timestamp", .num now),
          ("conversation_id", objLookupD t "conversation_id" .null),
          ("agent_id", objLookupD t "agent_id" .null),
          ("transcript", t),
          ("statistics", s),
          ("analysis", a),
          ("raw_data", .obj fs)],
        ?_, rfl, fun hContra => absurd hContra h, ?_⟩
      · rw [process_post_call_webhook_obj_eq, if_neg h, htrip]
      · intro e he; exact absurd he (by simp)

/-- Closed witness for C5: a payload of a non-post-call type is error-tagged
and keeps the raw payload, by `process_post_call_webhook_spec`. -/
theorem process_post_call_webhook_spec_witness :
    ∃ rfields : List (String × JValue),
      process_post_call_webhook 0 (.obj [("type", .str "conversation.update")]) =
        .ok (.obj rfields) ∧
      lookupJ rfields "raw_data" =
        some (.obj [("type", .str "conversation.update")]) ∧
      ∃ msg, lookupJ rfields "error" = some (.str msg) := by
  obtain ⟨rf, h1, h2, h3, _⟩ :=
    process_post_call_webhook_spec 0 [("type", .str "conversation.update")]
  exact ⟨rf, h1, h2, h3 (by rfl)⟩

/-- An id-preserving update of the entry stored under `sid` is visible to the
id lookup. -/
theorem findSessionById_updateById (sessions : List ConversationSession)
    (sid : String) (f : ConversationSession → ConversationSession)
    (s : ConversationSession) (hf : ∀ t, (f t).session_id = t.session_id)
    (h : findSessionById sessions (.str sid) = some s) :
    findSessionById (updateById sessions sid f) (.str sid) = some (f s) := by
  induction sessions with
  | nil => simp [findSessionById] at h
  | cons hd tl ih =>
      by_cases hh : hd.session_id == sid
      · have hs : s = hd := by
          simp [findSessionById, List.find?, hh] at h
          exact h.symm
        subst hs
        simp [findSessionById, updateById, List.find?, hh, hf]
      · have h1 : findSessionById tl (.str sid) = some s := by
          simpa [findSessionById, List.find?, hh] using h
        have h2 := ih h1
        simpa [findSessionById, updateById, List.find?, hh] using h2

/-- C10: handling a `join_session` event for an existing session sets its
status to Active regardless of the prior status (a Completed session moves back
to Active), and the emitted `session_joined` event reports status "active". -/
theorem handle_join_session_sets_active (sessions : List ConversationSession)
    (sid : String) (s : ConversationSession)
    (h : findSessionById sessions (.str sid) = some s) :
    findSessionById (handle_join_session sessions
        (.obj [("session_id", .str sid)])).1 (.str sid) =
      some { s with status := .ACTIVE } ∧
    (handle_join_session sessions (.obj [("session_id", .str sid)])).2 =
      [JValue.obj [("session_id", .str sid), ("status", .str "active")]] := by
  have hstep : handle_join_session sessions (.obj [("session_id", .str sid)]) =
      match findSessionById sessions (.str sid) with
      | none => (sessions, [JValue.obj [("message", .str "Invalid session")]])
      | some _ =>
          (updateById sessions sid fun sess => { sess with status := .ACTIVE },
           [JValue.obj [("session_id", .str sid), ("status", .str "active")]]) := rfl
  rw [hstep, h]
  exact ⟨findSessionById_updateById sessions sid _ s (fun t => rfl) h, rfl⟩

/-- Closed witness for C10: a Completed session moves back to Active on a
`join_session` event, by `handle_join_session_sets_active`. -/
theorem handle_join_session_sets_active_witness :
    findSessionById [joinWitnessSession] (.str "J") = some joinWitnessSession ∧
    joinWitnessSession.status = .COMPLETED ∧
    findSessionById (handle_join_session [joinWitnessSession]
        (.obj [("session_id", .str "J")])).1 (.str "J") =
      some { joinWitnessSession with status := .ACTIVE } := by
  exact ⟨rfl, rfl, (handle_join_session_sets_active [joinWitnessSession] "J"
    joinWitnessSession rfl).1⟩

/-- Rounding zero gives zero. -/
theorem pyRound4_zero : pyRound4 0 = 0 := by
  norm_num [pyRound4, roundHalfEven]

/-- Unfolding of `String.append` as `++`. -/
theorem string_append_eq (a b : String) : String.append a b = a ++ b := rfl

/-- Bind on a successful `Except` computation. -/
theorem except_ok_bind {α β ε : Type} (a : α) (f : α → Except ε β) :
    (Except.ok a >>= f : Except ε β) = f a := rfl

/-- Bind on a failed `Except` computation. -/
theorem except_error_bind {α β ε : Type} (e : ε) (f : α → Except ε β) :
    ((Except.error e : Except ε α) >>= f) = Except.error e := rfl

/-- Unfolding of `pure` on `Except` as `Except.ok`. -/
theorem except_pure_eq {α ε : Type} (a : α) :
    (pure a : Except ε α) = Except.ok a := rfl

/-- Zero seconds render as "0 seconds". -/
theorem format_duration_zero : format_duration 0 = "0 seconds" := by decide

/-- C7: in the realtime-published summary of a post-call transcription
callback, a summary string longer than 200 characters is truncated to its
first 200 characters followed by "...", and a summary of 200 characters or
fewer is passed through unchanged — for every summary string `s`, every digest
function and every classification collaborator. -/
theorem webhook_post_call_summary_truncation (hm : String → String)
    (classify : JValue → Except String JValue) (s : String) :
    (webhook hm classify 5 [summarySession]
        ⟨some "sig", "raw", summaryPayload s⟩).emitted =
      [("S", JValue.obj
        [("type", .str "post_call_transcription"),
         ("session_id", .str "S"),
         ("data", .obj
           [("conversation_id", .str "conv-1"), ("agent_id", .str "agent-1"),
            ("transcript", .arr []), ("metadata", .obj []),
            ("analysis", .obj [("transcript_summary", .str s)])]),
         ("summary", .obj
           [("message_count", .num 0),
            ("call_duration", .str "0 seconds"),
            ("total_cost", .num 0),
            ("call_summary", .str (if 200 < s.length
              then s.take 200 ++ "..." else s))])])] := by
  rcases hcl : classify (JValue.obj
      [("conversation_id", .str "conv-1"), ("agent_id", .str "agent-1"),
       ("transcript", .arr []), ("message_count", .num 0),
       ("raw_transcript", .arr [])]) with e | ct <;>
  by_cases hlen : 200 < s.length <;>
  simp [webhook, webhookTry, verify_webhook_signature, correlate,
    summaryPayload, summarySession, findSessionIdxByConversationId,
    List.findIdx?, pyGet,
    pyGetD, lookupJ, pyEq, pyTruthy, updateAt, processPostCallStep,
    process_post_call_webhook, extract_transcript_data, extract_call_statistics,
    extract_analysis_data, extract_features_used, pyItems, pyIterList,
    llmGenTypeStep, pyContains, buildEmitSummary, statusUpdateStep, objSet,
    objSetFields, objLookupD, objHasKey, pyLen, pyToNum, hcl, hlen,
    pyRound4_zero, format_duration_zero, except_ok_bind, except_error_bind,
    except_pure_eq, maxByCreatedAt, bindSession, agentMatchCandidates,
    recentCandidates, formatTranscriptEntry, formatCollectedEntry,
    List.mapM, List.mapM.loop, List.foldlM, List.filter, string_append_eq,
    agentIdOf, dataValOf]

/-- The first-maximal fold behind `maxByCreatedAt`: the result is the start or
a list element, is at least the start, and bounds every element. -/
theorem foldl_pickMax_spec (xs : List (ℕ × ConversationSession))
    (a : ℕ × ConversationSession) :
    (xs.foldl (fun acc y => if acc.2.created_at < y.2.created_at then y else acc) a
        = a ∨
      xs.foldl (fun acc y => if acc.2.created_at < y.2.created_at then y else acc) a
        ∈ xs) ∧
    a.2.created_at ≤
      (xs.foldl (fun acc y => if acc.2.created_at < y.2.created_at then y else acc)
        a).2.created_at ∧
    ∀ y ∈ xs, y.2.created_at ≤
      (xs.foldl (fun acc y => if acc.2.created_at < y.2.created_at then y else acc)
        a).2.created_at := by
  induction xs generalizing a with
  | nil => simp
  | cons hd tl ih =>
      simp only [List.foldl_cons]
      by_cases h : a.2.created_at < hd.2.created_at
      · rw [if_pos h]
        obtain ⟨hmem, hge, hall⟩ := ih hd
        refine ⟨?_, le_trans (le_of_lt h) hge, ?_⟩
        · rcases hmem with h1 | h1
          · exact Or.inr (by simp [h1])
          · exact Or.inr (List.mem_cons_of_mem _ h1)
        · intro y hy
          rcases List.mem_cons.mp hy with rfl | hy1
          · exact hge
          · exact hall y hy1
      · rw [if_neg h]
        obtain ⟨hmem, hge, hall⟩ := ih a
        refine ⟨?_, hge, ?_⟩
        · rcases hmem with h1 | h1
          · exact Or.inl h1
          · exact Or.inr (List.mem_cons_of_mem _ h1)
        · intro y hy
          rcases List.mem_cons.mp hy with rfl | hy1
          · exact le_trans (le_of_not_lt h) hge
          · exact hall y hy1

/-- A nonempty candidate list has a first maximum by `created_at`, which is a
member bounding all members. -/
theorem maxByCreatedAt_spec (l : List (ℕ × ConversationSession)) (hne : l ≠ []) :
    ∃ x, maxByCreatedAt l = some x ∧ x ∈ l ∧
      ∀ y ∈ l, y.2.created_at ≤ x.2.created_at := by
  match l, hne with
  | x :: xs, _ =>
    obtain ⟨hmem, hge, hall⟩ := foldl_pickMax_spec xs x
    refine ⟨_, rfl, ?_, ?_⟩
    · rcases hmem with h1 | h1
      · rw [h1]; exact List.mem_cons_self x xs
      · exact List.mem_cons_of_mem _ h1
    · intro y hy
      rcases List.mem_cons.mp hy with rfl | hy1
      · exact hge
      · exact hall y hy1

/-- C2: for a `post_call_transcription` callback whose declared call identity
matches no session and whose declared agent identity is truthy, if some session
has that agent identity with status Initializing or Active, the correlation
picks among those the one with the latest `created_at` (first wins ties), binds
its `conversation_id` to the declared call identity and promotes it to
Active. -/
theorem correlate_agent_fallback (now : ℤ) (sessions : List ConversationSession)
    (conv agent : JValue)
    (hnomatch : ∀ sess ∈ sessions, pyEq sess.conversation_id conv = false)
    (hagent : pyTruthy agent = true)
    (hcand : ∃ sess ∈ sessions,
      pyEq (.str sess.agent_id) agent = true ∧ statusOpen sess = true) :
    ∃ i s, sessions[i]? = some s ∧
      pyEq (.str s.agent_id) agent = true ∧ statusOpen s = true ∧
      (∀ t ∈ sessions, pyEq (.str t.agent_id) agent = true → statusOpen t = true →
        t.created_at ≤ s.created_at) ∧
      correlate now sessions (.str "post_call_transcription") conv agent =
        (some i, sessions.set i
          { s with conversation_id := conv, status := .ACTIVE }) := by
  have hidx : findSessionIdxByConversationId sessions conv = none := by
    rw [findSessionIdxByConversationId, List.findIdx?_eq_none_iff]
    exact hnomatch
  have hne : agentMatchCandidates sessions agent ≠ [] := by
    obtain ⟨t, ht, hta, hto⟩ := hcand
    obtain ⟨j, hj⟩ := List.getElem?_of_mem ht
    refine List.ne_nil_of_mem (a := (j, t)) (List.mem_filter.mpr ⟨?_, ?_⟩)
    · exact List.mem_enum_iff_getElem?.mpr hj
    · simp [hta, hto]
  obtain ⟨⟨i, s⟩, hmax, hmem, hall⟩ := maxByCreatedAt_spec _ hne
  obtain ⟨henum, hpred⟩ := List.mem_filter.mp hmem
  have hget : sessions[i]? = some s := List.mem_enum_iff_getElem?.mp henum
  have hpred1 : pyEq (.str s.agent_id) agent = true ∧ statusOpen s = true := by
    simpa using hpred
  have hguard : (pyEq (.str "post_call_transcription")
      (.str "post_call_transcription") && pyTruthy agent) = true := by
    simp [pyEq, hagent]
  refine ⟨i, s, hget, hpred1.1, hpred1.2, ?_, ?_⟩
  · intro t ht hta hto
    obtain ⟨j, hj⟩ := List.getElem?_of_mem ht
    have : (j, t) ∈ agentMatchCandidates sessions agent :=
      List.mem_filter.mpr ⟨List.mem_enum_iff_getElem?.mpr hj, by simp [hta, hto]⟩
    exact hall (j, t) this
  · simp only [correlate, hidx, hguard, if_true, hmax, bindSession]

/-- Closed witness for C2, the spec example: a completion callback for agent X
with no call-id match binds to A (the only candidate), by
`correlate_agent_fallback`. -/
theorem correlate_agent_fallback_witness :
    ∃ i s, [sessionA, sessionB][i]? = some s ∧
      pyEq (.str s.agent_id) (.str "agent-x") = true ∧ statusOpen s = true ∧
      (∀ t ∈ [sessionA, sessionB], pyEq (.str t.agent_id) (.str "agent-x") = true →
        statusOpen t = true → t.created_at ≤ s.created_at) ∧
      correlate 20 [sessionA, sessionB] (.str "post_call_transcription")
          (.str "conv-9") (.str "agent-x") =
        (some i, [sessionA, sessionB].set i
          { s with conversation_id := .str "conv-9", status := .ACTIVE }) :=
  correlate_agent_fallback 20 [sessionA, sessionB] (.str "conv-9")
    (.str "agent-x") (by decide) rfl ⟨sessionA, by simp, rfl, rfl⟩

/-- C3 counterexample: a completion callback with an unmatched call identity
and NO declared agent identity (`data.agent_id` absent, hence `None`).  The
claim says the recency fallback still applies and binds the recent session;
the code nests the recency fallback inside `if agent_id:` (conv_orchestration.py
lines 327-367), so no fallback runs at all and the store is untouched. -/
theorem correlate_recency_without_agent_counterexample :
    recentCandidates 1000 [recencySession] = [(0, recencySession)] ∧
    pyEq recencySession.conversation_id (.str "conv-1") = false ∧
    correlate 1000 [recencySession] (.str "post_call_transcription")
        (.str "conv-1") .null =
      (none, [recencySession]) :=
  ⟨rfl, rfl, rfl⟩

/-- C3 (amended): the recency fallback applies only when a truthy agent
identity is declared and the agent-scoped match found nothing; it then binds
the latest-created session with open status inside the 300-second window,
regardless of agent match.  When the declared agent identity is falsy
(absent), no fallback runs and correlation misses. -/
theorem correlate_recency_fallback (now : ℤ) (sessions : List ConversationSession)
    (conv agent : JValue)
    (hnomatch : ∀ sess ∈ sessions, pyEq sess.conversation_id conv = false)
    (hnoagentmatch : ∀ t ∈ sessions,
      ¬(pyEq (.str t.agent_id) agent = true ∧ statusOpen t = true))
    (hrecent : ∃ sess ∈ sessions, statusOpen sess = true ∧
      now - sess.created_at < 300) :
    (pyTruthy agent = true →
      ∃ i s, sessions[i]? = some s ∧ statusOpen s = true ∧
        now - s.created_at < 300 ∧
        (∀ t ∈ sessions, statusOpen t = true → now - t.created_at < 300 →
          t.created_at ≤ s.created_at) ∧
        correlate now sessions (.str "post_call_transcription") conv agent =
          (some i, sessions.set i
            { s with conversation_id := conv, status := .ACTIVE })) ∧
    (pyTruthy agent = false →
      correlate now sessions (.str "post_call_transcription") conv agent =
        (none, sessions)) := by
  have hidx : findSessionIdxByConversationId sessions conv = none := by
    rw [findSessionIdxByConversationId, List.findIdx?_eq_none_iff]
    exact hnomatch
  constructor
  · intro hagent
    have hempty : agentMatchCandidates sessions agent = [] := by
      rw [agentMatchCandidates, List.filter_eq_nil_iff]
      intro p hp
      have hpm : p.2 ∈ sessions :=
        List.mem_iff_getElem?.mpr ⟨p.1, List.mem_enum_iff_getElem?.mp hp⟩
      have := hnoagentmatch p.2 hpm
      simp only [Bool.and_eq_true]
      tauto
    have hne : recentCandidates now sessions ≠ [] := by
      obtain ⟨t, ht, hto, htr⟩ := hrecent
      obtain ⟨j, hj⟩ := List.getElem?_of_mem ht
      refine List.ne_nil_of_mem (a := (j, t)) (List.mem_filter.mpr ⟨?_, ?_⟩)
      · exact List.mem_enum_iff_getElem?.mpr hj
      · simp [hto, htr]
    obtain ⟨⟨i, s⟩, hmax, hmem, hall⟩ := maxByCreatedAt_spec _ hne
    obtain ⟨henum, hpred⟩ := List.mem_filter.mp hmem
    have hget : sessions[i]? = some s := List.mem_enum_iff_getElem?.mp henum
    have hpred1 : statusOpen s = true ∧ now - s.created_at < 300 := by
      simpa using hpred
    have hguard : (pyEq (.str "post_call_transcription")
        (.str "post_call_transcription") && pyTruthy agent) = true := by
      simp [pyEq, hagent]
    refine ⟨i, s, hget, hpred1.1, hpred1.2, ?_, ?_⟩
    · intro t ht hto htr
      obtain ⟨j, hj⟩ := List.getElem?_of_mem ht
      have : (j, t) ∈ recentCandidates now sessions :=
        List.mem_filter.mpr ⟨List.mem_enum_iff_getElem?.mpr hj, by simp [hto, htr]⟩
      exact hall (j, t) this
    · have hmaxagent : maxByCreatedAt (agentMatchCandidates sessions agent) = none := by
        rw [hempty]; rfl
      simp only [correlate, hidx, hguard, if_true, hmaxagent, hmax, bindSession]
  · intro hagent
    have hguard : (pyEq (.str "post_call_transcription")
        (.str "post_call_transcription") && pyTruthy agent) = false := by
      simp [hagent]
    simp only [correlate, hidx, hguard, Bool.false_eq_true, if_false]

/-- Closed witness for C3 (amended), the spec example: a completion callback
for agent Z with no exact or agent match binds, within the window, to the most
recently created open session, by `correlate_recency_fallback`. -/
theorem correlate_recency_fallback_witness :
    ∃ i s, [recencySession, recencySessionB][i]? = some s ∧
      statusOpen s = true ∧ (1000 : ℤ) - s.created_at < 300 ∧
      (∀ t ∈ [recencySession, recencySessionB], statusOpen t = true →
        (1000 : ℤ) - t.created_at < 300 → t.created_at ≤ s.created_at) ∧
      correlate 1000 [recencySession, recencySessionB]
          (.str "post_call_transcription") (.str "conv-1") (.str "agent-z") =
        (some i, [recencySession, recencySessionB].set i
          { s with conversation_id := .str "conv-1", status := .ACTIVE }) :=
  (correlate_recency_fallback 1000 [recencySession, recencySessionB]
    (.str "conv-1") (.str "agent-z") (by decide) (by decide)
    ⟨recencySession, by simp, rfl, by decide⟩).1 rfl

/-- Under uniqueness, the conversation-id scan returns the very session whose
forward record holds the identity. -/
theorem findSessionByConversationId_self (sessions : List ConversationSession)
    (hu : UniqueCallIds sessions) (i : ℕ) (s : ConversationSession)
    (hi : sessions[i]? = some s) (hnn : s.conversation_id ≠ .null)
    (hok : convIdOk s.conversation_id) :
    findSessionByConversationId sessions s.conversation_id = some s := by
  have hmem : s ∈ sessions := List.mem_iff_getElem?.mpr ⟨i, hi⟩
  have hps : pyEq s.conversation_id s.conversation_id = true := by
    rcases hok with h0 | ⟨a, ha⟩
    · exact absurd h0 hnn
    · rw [ha]; simp [pyEq]
  have hsome : (sessions.find? fun t =>
      pyEq t.conversation_id s.conversation_id).isSome :=
    List.find?_isSome.mpr ⟨s, hmem, hps⟩
  obtain ⟨t, hfind⟩ := Option.isSome_iff_exists.mp hsome
  have hpt := List.find?_some hfind
  have htmem : t ∈ sessions := List.mem_of_find?_eq_some hfind
  obtain ⟨j, hj⟩ := List.getElem?_of_mem htmem
  have hts : t = s := by
    by_cases hij : j = i
    · subst hij
      rw [hj] at hi
      exact Option.some_inj.mp hi
    · exact absurd hpt
        (by simp [hu i j s t (fun hh => hij hh.symm) hi hj hnn])
  rw [findSessionByConversationId, hfind, hts]

/-- The function `maxByCreatedAt` only returns members of its argument. -/
theorem maxByCreatedAt_eq_some_mem (l : List (ℕ × ConversationSession))
    (x : ℕ × ConversationSession) (h : maxByCreatedAt l = some x) : x ∈ l := by
  match l with
  | [] => exact absurd h (by simp [maxByCreatedAt])
  | y :: ys =>
    obtain ⟨hmem, _, _⟩ := foldl_pickMax_spec ys y
    have h' : some (ys.foldl
        (fun acc z => if acc.2.created_at < z.2.created_at then z else acc) y) =
        some x := h
    have hx := Option.some_inj.mp h'
    rcases hmem with h1 | h1
    · rw [← hx, h1]; exact List.mem_cons_self y ys
    · rw [← hx]; exact List.mem_cons_of_mem _ h1

/-- The correlation step either leaves the store unchanged or, when the scan
found no session holding the declared identity, rebinds exactly one existing
session to it (with status promoted to Active). -/
theorem correlate_state_cases (now : ℤ) (sessions : List ConversationSession)
    (wt conv agent : JValue) :
    (correlate now sessions wt conv agent).2 = sessions ∨
    ((∀ sess ∈ sessions, pyEq sess.conversation_id conv = false) ∧
      ∃ i s, sessions[i]? = some s ∧
        (correlate now sessions wt conv agent).2 =
          sessions.set i { s with conversation_id := conv, status := .ACTIVE }) := by
  rcases hidx : findSessionIdxByConversationId sessions conv with _ | i
  · have hnone : ∀ sess ∈ sessions, pyEq sess.conversation_id conv = false := by
      rw [findSessionIdxByConversationId, List.findIdx?_eq_none_iff] at hidx
      exact hidx
    by_cases hg : (pyEq wt (.str "post_call_transcription") && pyTruthy agent) = true
    · rcases hm1 : maxByCreatedAt (agentMatchCandidates sessions agent)
          with _ | ⟨i, s⟩
      · rcases hm2 : maxByCreatedAt (recentCandidates now sessions) with _ | ⟨i, s⟩
        · left
          simp only [correlate, hidx, hg, if_true, hm1, hm2]
        · right
          refine ⟨hnone, i, s, ?_, ?_⟩
          · have hmem := maxByCreatedAt_eq_some_mem _ _ hm2
            exact List.mem_enum_iff_getElem?.mp (List.mem_filter.mp hmem).1
          · simp only [correlate, hidx, hg, if_true, hm1, hm2, bindSession]
      · right
        refine ⟨hnone, i, s, ?_, ?_⟩
        · have hmem := maxByCreatedAt_eq_some_mem _ _ hm1
          exact List.mem_enum_iff_getElem?.mp (List.mem_filter.mp hmem).1
        · simp only [correlate, hidx, hg, if_true, hm1, bindSession]
    · left
      simp only [correlate, hidx]
      rw [if_neg hg]
  · left
    simp only [correlate, hidx]

/-- C6 (amended): the webhook correlation step preserves well-typedness and
uniqueness of non-null call identities (it binds an identity only when no
session holds it), and afterwards the conversation-id scan maps every bound
identity back to its holder.  (The counterexample shows the client-driven
`conversation_started` handler does NOT preserve this invariant.) -/
theorem correlate_preserves_call_id_uniqueness (now : ℤ)
    (sessions : List ConversationSession) (wt conv agent : JValue)
    (hok : StoreConvOk sessions) (hu : UniqueCallIds sessions)
    (hconv : convIdOk conv) :
    StoreConvOk (correlate now sessions wt conv agent).2 ∧
    UniqueCallIds (correlate now sessions wt conv agent).2 ∧
    (∀ (i : ℕ) (s : ConversationSession),
      (correlate now sessions wt conv agent).2[i]? = some s →
      s.conversation_id ≠ .null →
      findSessionByConversationId (correlate now sessions wt conv agent).2
        s.conversation_id = some s) := by
  have hmain : StoreConvOk (correlate now sessions wt conv agent).2 ∧
      UniqueCallIds (correlate now sessions wt conv agent).2 := by
    rcases correlate_state_cases now sessions wt conv agent
        with hsame | ⟨hnone, i, s, hi, hset⟩
    · rw [hsame]; exact ⟨hok, hu⟩
    · rw [hset]
      have hilen : i < sessions.length := by
        rcases List.getElem?_eq_some.mp hi with ⟨hl, _⟩
        exact hl
      constructor
      · intro u hu2
        rcases List.mem_or_eq_of_mem_set hu2 with h1 | h1
        · exact hok u h1
        · rw [h1]; exact hconv
      · intro i' j' s' t' hne hi' hj' hnn'
        by_cases hii : i' = i
        · subst hii
          rw [List.getElem?_set_self hilen] at hi'
          have hjne : i' ≠ j' := hne
          rw [List.getElem?_set_ne (fun hh => hjne hh)] at hj'
          have htmem : t' ∈ sessions := List.mem_iff_getElem?.mpr ⟨j', hj'⟩
          have hs' : s' = { s with conversation_id := conv, status := .ACTIVE } :=
            (Option.some_inj.mp hi').symm
          rw [hs']
          exact hnone t' htmem
        · by_cases hjj : j' = i
          · subst hjj
            rw [List.getElem?_set_self hilen] at hj'
            rw [List.getElem?_set_ne (fun hh => hii hh.symm)] at hi'
            have hsmem : s' ∈ sessions := List.mem_iff_getElem?.mpr ⟨i', hi'⟩
            have ht' : t' = { s with conversation_id := conv, status := .ACTIVE } :=
              (Option.some_inj.mp hj').symm
            rw [ht']
            show pyEq conv s'.conversation_id = false
            rcases hok s' hsmem with h0 | ⟨a, ha⟩
            · exact absurd h0 hnn'
            · rcases hconv with hc0 | ⟨b, hb⟩
              · rw [hc0, ha]; rfl
              · have hne2 := hnone s' hsmem
                rw [ha, hb] at hne2
                rw [ha, hb]
                simp [pyEq] at hne2 ⊢
                exact fun hh => hne2 hh.symm
          · rw [List.getElem?_set_ne (fun hh => hii hh.symm)] at hi'
            rw [List.getElem?_set_ne (fun hh => hjj hh.symm)] at hj'
            exact hu i' j' s' t' hne hi' hj' hnn'
  refine ⟨hmain.1, hmain.2, ?_⟩
  intro i s hi hnn
  exact findSessionByConversationId_self _ hmain.2 i s hi hnn
    (hmain.1 s (List.mem_iff_getElem?.mpr ⟨i, hi⟩))

/-- C6 counterexample: after two `conversation_started` events carrying the
same conversation id for two different sessions — mutations the handler
performs unconditionally (conv_orchestration.py lines 529-548) — sessions "A"
and "B" simultaneously hold the same non-null call identity "c7", and the
conversation-id scan resolves "c7" to session "A", contradicting session B's
forward record.  So the claimed invariant does not hold after every mutation of
the session store. -/
theorem sessions_duplicate_call_id_counterexample :
    dupStarted2[0]?.map (fun s => (s.session_id, s.conversation_id)) =
      some ("A", .str "c7") ∧
    dupStarted2[1]?.map (fun s => (s.session_id, s.conversation_id)) =
      some ("B", .str "c7") ∧
    (findSessionByConversationId dupStarted2 (.str "c7")).map
      (fun s => s.session_id) = some "A" ∧
    ("A" : String) ≠ "B" :=
  ⟨rfl, rfl, rfl, by decide⟩

/-- Closed witness for C6 (amended), applying
`correlate_preserves_call_id_uniqueness` to a concrete well-formed store. -/
theorem correlate_preserves_call_id_uniqueness_witness :
    StoreConvOk (correlate 20 [sessionA, sessionB]
      (.str "post_call_transcription") (.str "conv-9") (.str "agent-x")).2 ∧
    UniqueCallIds (correlate 20 [sessionA, sessionB]
      (.str "post_call_transcription") (.str "conv-9") (.str "agent-x")).2 ∧
    (∀ (i : ℕ) (s : ConversationSession),
      (correlate 20 [sessionA, sessionB] (.str "post_call_transcription")
        (.str "conv-9") (.str "agent-x")).2[i]? = some s →
      s.conversation_id ≠ .null →
      findSessionByConversationId (correlate 20 [sessionA, sessionB]
        (.str "post_call_transcription") (.str "conv-9") (.str "agent-x")).2
        s.conversation_id = some s) := by
  refine correlate_preserves_call_id_uniqueness 20 [sessionA, sessionB]
    (.str "post_call_transcription") (.str "conv-9") (.str "agent-x")
    ?_ ?_ (Or.inr ⟨"conv-9", rfl⟩)
  · intro s hs
    simp only [List.mem_cons, List.mem_singleton, List.not_mem_nil] at hs
    rcases hs with rfl | rfl | hs
    · exact Or.inl rfl
    · exact Or.inl rfl
    · exact absurd hs (by simp)
  · intro i j s t hne hi hj hnn
    have hs : s ∈ [sessionA, sessionB] := List.mem_iff_getElem?.mpr ⟨i, hi⟩
    simp only [List.mem_cons, List.mem_singleton, List.not_mem_nil] at hs
    rcases hs with rfl | rfl | hs
    · exact absurd rfl hnn
    · exact absurd rfl hnn
    · exact absurd hs (by simp)

/-- When correlation selects nothing it also leaves the store unchanged. -/
theorem correlate_none_eq (now : ℤ) (sessions : List ConversationSession)
    (wt conv agent : JValue)
    (h : (correlate now sessions wt conv agent).1 = none) :
    correlate now sessions wt conv agent = (none, sessions) := by
  rcases hidx : findSessionIdxByConversationId sessions conv with _ | i
  · by_cases hg : (pyEq wt (.str "post_call_transcription") && pyTruthy agent) = true
    · rcases hm1 : maxByCreatedAt (agentMatchCandidates sessions agent)
          with _ | ⟨i, s⟩
      · rcases hm2 : maxByCreatedAt (recentCandidates now sessions) with _ | ⟨i, s⟩
        · simp only [correlate, hidx, hg, if_true, hm1, hm2]
        · exfalso
          revert h
          simp only [correlate, hidx, hg, if_true, hm1, hm2]
          simp
      · exfalso
        revert h
        simp only [correlate, hidx, hg, if_true, hm1]
        simp
    · simp only [correlate, hidx]
      rw [if_neg hg]
  · exfalso
    revert h
    simp only [correlate, hidx]
    simp

/-- C4 counterexample: a request whose signature check passes but whose JSON
body is not an object (here a list).  `request.json.get('type')` raises inside
the `try` block of the endpoint, which answers 500 — a non-success response on
an authenticated callback, contradicting the claim that only signature failure
is non-success. -/
theorem webhook_500_despite_valid_signature_counterexample :
    verify_webhook_signature (fun _ => "digest") (some "sig") "rawbody" = true ∧
    webhook (fun _ => "digest") (fun _ => .error "collaborator-down") 0 []
      ⟨some "sig", "rawbody", .arr []⟩ =
      ⟨[], .processingFailed, []⟩ :=
  ⟨rfl, rfl⟩

/-- C4 (amended): signature failure answers 401 with the store untouched; an
authenticated callback is answered 200 `{status: "processed"}` unless an
uncaught processing exception turns it into a 500; in particular a correlation
miss (well-formed callback, no session selected) mutates nothing, emits
nothing, and still answers 200. -/
theorem webhook_response_spec (hm : String → String)
    (classify : JValue → Except String JValue) (now : ℤ)
    (sessions : List ConversationSession) (req : WebhookRequest) :
    (verify_webhook_signature hm req.signature req.rawBody = false →
      webhook hm classify now sessions req =
        ⟨sessions, .unauthorized, []⟩) ∧
    (verify_webhook_signature hm req.signature req.rawBody = true →
      (webhook hm classify now sessions req).response = .processed ∨
      (webhook hm classify now sessions req).response = .processingFailed) ∧
    (∀ wt conv : JValue,
      verify_webhook_signature hm req.signature req.rawBody = true →
      pyGet req.json "type" = .ok wt →
      (do
        let d ← pyGetD req.json "data" (.obj [])
        pyGet d "conversation_id" : Except String JValue) = .ok conv →
      (correlate now sessions wt conv (agentIdOf req.json)).1 = none →
      webhook hm classify now sessions req = ⟨sessions, .processed, []⟩) := by
  refine ⟨?_, ?_, ?_⟩
  · intro hv
    simp only [webhook]
    rw [if_pos hv]
  · intro hv
    simp only [webhook]
    rw [if_neg (by simp [hv])]
    rcases h : webhookTry classify now sessions req.json with ⟨st, em, ok⟩
    cases ok
    · exact Or.inr rfl
    · exact Or.inl rfl
  · intro wt conv hv hwt hconv hcorr
    have hc2 := correlate_none_eq now sessions wt conv (agentIdOf req.json) hcorr
    simp only [webhook]
    rw [if_neg (by simp [hv])]
    simp only [webhookTry, hwt, hconv, hc2]

/-- Closed witness for C4 (amended): an authenticated callback with an empty
object body matches no session in an empty store, mutates nothing and is
answered 200 `{status: "processed"}`, by `webhook_response_spec`. -/
theorem webhook_response_spec_witness :
    webhook (fun _ => "digest") (fun _ => .error "collaborator-down") 0 []
      ⟨some "sig", "rawbody", .obj []⟩ = ⟨[], .processed, []⟩ :=
  (webhook_response_spec (fun _ => "digest")
    (fun _ => .error "collaborator-down") 0 []
    ⟨some "sig", "rawbody", .obj []⟩).2.2 .null .null rfl rfl rfl rfl
